import Mathlib

/-!
Shallow embedding of `src/selfapp/my_suumo/suumo_scraping.py`.

The Python module scrapes a real-estate listing site: `fetch_page` retrieves a
URL with bounded retries, `parse_search_results` extracts summary records from
the listing-index page, `parse_property_details` extracts structure/deposit
fields from a detail page, and `scrape_and_save` orchestrates the pipeline,
filters out wood-construction listings and hands the result to the Excel sink.

HTML documents are modelled as a tree of element/text nodes with the
BeautifulSoup operations the source uses (`find`, `find_all`, `.text`,
attribute lookup).  The network is modelled as a function from URL and attempt
index to either a document body or an error message.  Logging, sleeping and
file writes are reified into explicit traces so that the retry policy, the
abort behaviour and the sink payload can be stated and proved.
-/

set_option maxHeartbeats 1000000

namespace Suumo

/-! ### Constants (module-level constants of the source) -/

def BASE_URL : String := "https://suumo.jp"

def SEARCH_URL : String := "https://suumo.jp/jj/chintai/ichiran/FR301FC001/?..."

def MAX_RETRY : Nat := 3

def RETRY_INTERVAL : Nat := 5

def OUTPUT_EXCEL_FILE : String := "賃貸物件情報.xlsx"

/-! ### Python string primitives -/

/-- Python's substring containment test (`pat in s`), on character lists:
true iff `pat` occurs contiguously in the list. -/
def charsContain (pat : List Char) : List Char → Bool
  | [] => pat.isEmpty
  | c :: rest => pat.isPrefixOf (c :: rest) || charsContain pat rest

/-- Python's `pat in s` on strings. -/
def strContains (s pat : String) : Bool :=
  charsContain pat.data s.data

/-- Python's `s.split(sep)` for a one-character separator: splits on every
occurrence, keeping empty segments, and always returns at least one segment
(`"".split(sep) == [""]`). -/
def splitChar (c : Char) : List Char → List (List Char)
  | [] => [[]]
  | a :: rest =>
    if a = c then [] :: splitChar c rest
    else
      match splitChar c rest with
      | [] => [[a]]
      | g :: gs => (a :: g) :: gs

/-- Python's `s.split(sep)` for a one-character separator, on strings. -/
def pySplit (s : String) (c : Char) : List String :=
  (splitChar c s.data).map fun cs => String.mk cs

/-- The whitespace characters Python's `str.strip()` removes (ASCII whitespace
plus the ideographic space U+3000). -/
def pySpace (c : Char) : Bool :=
  c = ' ' || c = '\t' || c = '\n' || c = '\r' || c = '\x0b' || c = '\x0c' || c = '\u3000'

/-- Python's `s.strip()`: remove whitespace from both ends. -/
def pyStrip (s : String) : String :=
  String.mk (((s.data.dropWhile pySpace).reverse.dropWhile pySpace).reverse)

/-! ### HTML document model (BeautifulSoup fragment) -/

mutual

/-- An HTML node: an element with tag name, class list, attributes and
children, or a text node.  (`NodeList` is a specialised list of children so
that the traversal functions below are structurally recursive.) -/
inductive Node : Type where
  | elem (tag : String) (classes : List String) (attrs : List (String × String)) (children : NodeList)
  | text (s : String)

inductive NodeList : Type where
  | nil
  | cons (n : Node) (ns : NodeList)

end

/-- Build a `NodeList` from an ordinary list of nodes. -/
def nlist : List Node → NodeList
  | [] => NodeList.nil
  | n :: ns => NodeList.cons n (nlist ns)

mutual

/-- BeautifulSoup `.text`: all descendant strings concatenated in order. -/
def Node.innerText : Node → String
  | Node.text s => s
  | Node.elem _ _ _ cs => textList cs

/-- Concatenated text content of a child list (BeautifulSoup `.text`). -/
def textList : NodeList → String
  | NodeList.nil => ""
  | NodeList.cons n ns => n.innerText ++ textList ns

end

mutual

/-- All strict descendants of a node, in document (pre-)order. -/
def Node.descendants : Node → List Node
  | Node.text _ => []
  | Node.elem _ _ _ cs => descList cs

/-- All nodes of a child list together with their descendants, in document
order. -/
def descList : NodeList → List Node
  | NodeList.nil => []
  | NodeList.cons n ns => n :: (n.descendants ++ descList ns)

end

/-- Does a node match a tag name and (optionally) a CSS class
(BeautifulSoup's `name`/`class_` matching)? -/
def Node.matchesSel : Node → String → Option String → Bool
  | Node.text _, _, _ => false
  | Node.elem t _ _ _, tag, Option.none => t == tag
  | Node.elem t cls _ _, tag, Option.some c => t == tag && cls.contains c

/-- BeautifulSoup `find_all(tag, class_=cls)`: matching descendants in
document order. -/
def Node.find_all (n : Node) (tag : String) (cls : Option String) : List Node :=
  n.descendants.filter fun d => d.matchesSel tag cls

/-- BeautifulSoup `find(tag, class_=cls)`: first matching descendant, if any. -/
def Node.find (n : Node) (tag : String) (cls : Option String) : Option Node :=
  (n.find_all tag cls).head?

/-- BeautifulSoup `tag[key]`: attribute lookup on an element. -/
def Node.attr (n : Node) (key : String) : Option String :=
  match n with
  | Node.text _ => Option.none
  | Node.elem _ _ attrs _ => (attrs.find? fun p => p.1 == key).map fun p => p.2

/-! ### Records -/

/-- A partial listing record as produced by `parse_search_results`
(dict keys 物件名 / 賃料 / 間取り / 最寄駅 / URL). -/
structure SummaryRecord : Type where
  name : String
  price : String
  madori : String
  stations : List String
  url : String
deriving DecidableEq

/-- The detail fields produced by `parse_property_details`
(dict keys 構造 / 敷金礼金), initialised to the sentinel 情報なし. -/
structure Details : Type where
  struct : String
  deposit : String
deriving DecidableEq

/-- A fully merged listing record (`property_info.update(details)`). -/
structure FullRecord : Type where
  name : String
  price : String
  madori : String
  stations : List String
  url : String
  struct : String
  deposit : String
deriving DecidableEq

/-- `property_info.update(details)`: attach detail fields to a summary. -/
def mergeRecord (p : SummaryRecord) (d : Details) : FullRecord :=
  { name := p.name, price := p.price, madori := p.madori, stations := p.stations,
    url := p.url, struct := d.struct, deposit := d.deposit }

/-- The Python exception kinds that the unit-extraction code can raise. -/
inductive PyErr : Type where
  | attrError
  | typeError
  | indexError
  | keyError
deriving DecidableEq

/-! ### parse_search_results -/

/-- The body of the per-unit loop of `parse_search_results`, with Python's
exception semantics made explicit: `find(...)` returning `None` followed by
`.text`/`.find_all` raises `AttributeError`; `find_all("div")[1]` on a short
list raises `IndexError`; `None["href"]` raises `TypeError`; a missing `href`
attribute raises `KeyError`.  Evaluation order follows the source. -/
def extractUnit (u : Node) : Except PyErr SummaryRecord :=
  match u.find "div" (Option.some "property_unit-title") with
  | Option.none => Except.error PyErr.attrError
  | Option.some t =>
    match u.find "span" (Option.some "price") with
    | Option.none => Except.error PyErr.attrError
    | Option.some pr =>
      match u.find "span" (Option.some "madori") with
      | Option.none => Except.error PyErr.attrError
      | Option.some md =>
        match u.find "div" (Option.some "property_unit-body") with
        | Option.none => Except.error PyErr.attrError
        | Option.some body =>
          match (body.find_all "div" Option.none)[1]? with
          | Option.none => Except.error PyErr.indexError
          | Option.some d2 =>
            match u.find "a" (Option.some "js-物件概要") with
            | Option.none => Except.error PyErr.typeError
            | Option.some anchor =>
              match anchor.attr "href" with
              | Option.none => Except.error PyErr.keyError
              | Option.some href =>
                Except.ok
                  { name := pyStrip t.innerText
                    price := pyStrip pr.innerText
                    madori := pyStrip md.innerText
                    stations := (pySplit (pyStrip d2.innerText) '、').map pyStrip
                    url := BASE_URL ++ href }

/-- The unit loop of `parse_search_results`: only `AttributeError` is caught
(logged as one warning and the unit skipped); any other exception propagates
and aborts the whole call.  Returns the extracted records and the number of
warnings logged. -/
def parseUnits : List Node → Except PyErr (List SummaryRecord × Nat)
  | [] => Except.ok ([], 0)
  | u :: rest =>
    match extractUnit u with
    | Except.ok r =>
      match parseUnits rest with
      | Except.ok (rs, w) => Except.ok (r :: rs, w)
      | Except.error e => Except.error e
    | Except.error PyErr.attrError =>
      match parseUnits rest with
      | Except.ok (rs, w) => Except.ok (rs, w + 1)
      | Except.error e => Except.error e
    | Except.error e => Except.error e

/-- `parse_search_results`: find all `div.property_unit-content` units and run
the extraction loop. -/
def parse_search_results (html : Node) : Except PyErr (List SummaryRecord × Nat) :=
  parseUnits (html.find_all "div" (Option.some "property_unit-content"))

/-! ### parse_property_details -/

/-- The "unknown" sentinel the source uses for missing detail fields. -/
def NO_INFO : String := "情報なし"

/-- `soup.select("table.data_table tr")`: the rows of every
`table.data_table`, in document order. -/
def dataTableRows (doc : Node) : List Node :=
  ((doc.find_all "table" (Option.some "data_table")).map fun t =>
    t.find_all "tr" Option.none).flatten

/-- One iteration of the row loop of `parse_property_details`: rows missing a
`th` or `td` are skipped; a key containing 構造 updates `struct`, otherwise a
key containing 敷金 updates `deposit`. -/
def detailStep (d : Details) (row : Node) : Details :=
  match row.find "th" Option.none, row.find "td" Option.none with
  | Option.some h, Option.some v =>
    if strContains (pyStrip h.innerText) "構造" then { d with struct := pyStrip v.innerText }
    else if strContains (pyStrip h.innerText) "敷金" then { d with deposit := pyStrip v.innerText }
    else d
  | _, _ => d

/-- `parse_property_details`: fold the row loop over the detail table, starting
from the two sentinel defaults.  All modelled operations are total, so the
`except Exception` of the source has nothing to catch and the function never
fails. -/
def parse_property_details (doc : Node) : Details :=
  (dataTableRows doc).foldl detailStep { struct := NO_INFO, deposit := NO_INFO }

/-! ### fetch_page -/

/-- Log levels of the `logging` module as used by the source. -/
inductive LogLevel : Type where
  | info
  | warning
  | error
deriving DecidableEq

/-- The observable trace of one `fetch_page` call: the returned value (`none`
models Python's `None`), the number of `requests.get` attempts performed, the
list of `time.sleep` durations in order, and the log lines emitted. -/
structure FetchTrace (α : Type) : Type where
  result : Option α
  attempts : Nat
  sleeps : List Nat
  logs : List (LogLevel × String)
deriving DecidableEq

/-- The literal retry log message (`RETRY_INTERVAL` is 5). -/
def retryMsg : String := "Retrying after 5 seconds..."

/-- The error log line for one failed attempt. -/
def fetchErrLog (url e : String) : LogLevel × String :=
  (LogLevel.error, "Error fetching " ++ url ++ ": " ++ e)

/-- The body of `fetch_page`'s `for i in range(MAX_RETRY)` loop, iterating over
the remaining attempt indices.  `net i` is the outcome of attempt `i`: a
document body, or the `RequestException` message raised by `requests.get` /
`raise_for_status`.  On failure the error is logged and, when `i` is not the
final index, the retry message is logged and `RETRY_INTERVAL` is slept. -/
def fetchGo (url : String) (net : Nat → Except String α) : List Nat → FetchTrace α
  | [] => { result := Option.none, attempts := 0, sleeps := [], logs := [] }
  | i :: rest =>
    match net i with
    | Except.ok body => { result := Option.some body, attempts := 1, sleeps := [], logs := [] }
    | Except.error e =>
      let t := fetchGo url net rest
      if i < MAX_RETRY - 1 then
        { result := t.result, attempts := t.attempts + 1,
          sleeps := RETRY_INTERVAL :: t.sleeps,
          logs := fetchErrLog url e :: (LogLevel.info, retryMsg) :: t.logs }
      else
        { result := t.result, attempts := t.attempts + 1, sleeps := t.sleeps,
          logs := fetchErrLog url e :: t.logs }

/-- `fetch_page(url)` against a network `net`. -/
def fetch_page (url : String) (net : Nat → Except String α) : FetchTrace α :=
  fetchGo url net (List.range MAX_RETRY)

/-! ### save_to_excel and the world state -/

/-- The state external to one pipeline run: the output file's contents (as rows
of cells) and the accumulated log. -/
structure World : Type where
  file : Option (List (List String))
  log : List (LogLevel × String)

/-- The fixed header row of the output spreadsheet. -/
def excelHeader : List String :=
  ["物件名", "賃料", "敷金/礼金", "構造", "間取り", "最寄駅", "URL"]

/-- One data row: the record's fields in column order, station list joined
with ", ". -/
def recordRow (r : FullRecord) : List String :=
  [r.name, r.price, r.deposit, r.struct, r.madori,
   String.intercalate ", " r.stations, r.url]

/-- `save_to_excel`: with no data, log a warning and leave the file untouched;
otherwise overwrite the file with header plus one row per record. -/
def save_to_excel (data : List FullRecord) (w : World) : World :=
  if data.isEmpty then
    { w with log := w.log ++ [(LogLevel.warning, "No data to save.")] }
  else
    { file := Option.some (excelHeader :: data.map recordRow),
      log := w.log ++ [(LogLevel.info, "Saved data to " ++ OUTPUT_EXCEL_FILE)] }

/-! ### scrape_and_save -/

/-- The detail loop of `scrape_and_save`: for each summary record in order,
fetch its detail page; on total fetch failure log a warning and skip the
record; on success merge the parsed details.  Returns the merged records in
order and the log lines emitted. -/
def detailLoop (net : String → Nat → Except String Node) :
    List SummaryRecord → List FullRecord × List (LogLevel × String)
  | [] => ([], [])
  | p :: rest =>
    let t := detailLoop net rest
    match (fetch_page p.url (net p.url)).result with
    | Option.none =>
      (t.1,
        (fetch_page p.url (net p.url)).logs
          ++ [(LogLevel.warning, "Failed to fetch detail: " ++ p.url)] ++ t.2)
    | Option.some d =>
      (mergeRecord p (parse_property_details d) :: t.1,
        (fetch_page p.url (net p.url)).logs ++ t.2)

/-- The exclusion filter of `scrape_and_save`:
`[p for p in all_data if "木造" not in p["構造"]]`. -/
def filterWood (l : List FullRecord) : List FullRecord :=
  l.filter fun p => !(strContains p.struct "木造")

/-- The observable outcome of one `scrape_and_save` run: the world after the
run, whether `save_to_excel` was called, the record list passed to it, and the
detail-page URLs passed to `fetch_page`. -/
structure RunResult : Type where
  world : World
  sinkInvoked : Bool
  sinkPayload : List FullRecord
  detailFetchUrls : List String

/-- The per-unit warning lines of `parse_search_results` (one per malformed
unit that raised `AttributeError`). -/
def warnLogs (warns : Nat) : List (LogLevel × String) :=
  List.replicate warns (LogLevel.warning, "Failed to extract property")

/-- Outcome of `scrape_and_save` when the index fetch exhausts all retries:
log an error and return without fetching details or invoking the sink. -/
def indexFailResult (net : String → Nat → Except String Node) (w : World) : RunResult :=
  { world :=
      { w with log := w.log ++ [(LogLevel.info, "Start scraping...")]
          ++ (fetch_page SEARCH_URL (net SEARCH_URL)).logs
          ++ [(LogLevel.error, "Failed to get search results.")] },
    sinkInvoked := false, sinkPayload := [], detailFetchUrls := [] }

/-- Outcome of `scrape_and_save` when extraction yields no records: log a
warning and return without fetching details or invoking the sink. -/
def noPropsResult (net : String → Nat → Except String Node) (w : World) (warns : Nat) : RunResult :=
  { world :=
      { w with log := w.log ++ [(LogLevel.info, "Start scraping...")]
          ++ (fetch_page SEARCH_URL (net SEARCH_URL)).logs
          ++ warnLogs warns
          ++ [(LogLevel.warning, "No properties found.")] },
    sinkInvoked := false, sinkPayload := [], detailFetchUrls := [] }

/-- Outcome of `scrape_and_save` on the main path: run the detail loop, filter
out wood construction, and call `save_to_excel` on the filtered list. -/
def successResult (net : String → Nat → Except String Node) (w : World)
    (ps : List SummaryRecord) (warns : Nat) : RunResult :=
  let dl := detailLoop net ps
  let filtered := filterWood dl.1
  let w2 := save_to_excel filtered
    { file := w.file,
      log := w.log ++ [(LogLevel.info, "Start scraping...")]
          ++ (fetch_page SEARCH_URL (net SEARCH_URL)).logs
          ++ warnLogs warns ++ dl.2 }
  { world := { w2 with log := w2.log ++ [(LogLevel.info, "Scraping done.")] },
    sinkInvoked := true, sinkPayload := filtered,
    detailFetchUrls := ps.map fun p => p.url }

/-- `scrape_and_save` after a successful parse: abort with a warning when the
record list is empty, otherwise take the main path. -/
def afterParse (net : String → Nat → Except String Node) (w : World)
    (ps : List SummaryRecord) (warns : Nat) : RunResult :=
  if ps.isEmpty then noPropsResult net w warns else successResult net w ps warns

/-- `scrape_and_save` once the index document is in hand: a parse exception
(one not caught inside `parse_search_results`) propagates to the caller. -/
def scrapeStage2 (net : String → Nat → Except String Node) (w : World)
    (html : Node) : Except PyErr RunResult :=
  match parse_search_results html with
  | Except.error e => Except.error e
  | Except.ok (ps, warns) => Except.ok (afterParse net w ps warns)

/-- `scrape_and_save`: fetch the index page, parse it, enrich each record from
its detail page, filter and save. -/
def scrape_and_save (net : String → Nat → Except String Node) (w : World) :
    Except PyErr RunResult :=
  match (fetch_page SEARCH_URL (net SEARCH_URL)).result with
  | Option.none => Except.ok (indexFailResult net w)
  | Option.some html => scrapeStage2 net w html

/-- The record list handed to the sink by a run, when the run terminated
normally. -/
def payloadOf : Except PyErr RunResult → Option (List FullRecord)
  | Except.ok r => Option.some r.sinkPayload
  | Except.error _ => Option.none

/-! ### Behaviour of fetch_page -/

theorem fetch_page_ok0 {α : Type} {net : Nat → Except String α} (url : String) {b : α}
    (h0 : net 0 = Except.ok b) :
    fetch_page url net =
      { result := Option.some b, attempts := 1, sleeps := [], logs := [] } := by
  show fetchGo url net [0, 1, 2] = _
  simp [fetchGo, h0]

theorem fetch_page_ok1 {α : Type} {net : Nat → Except String α} (url : String)
    {e0 : String} {b : α}
    (h0 : net 0 = Except.error e0) (h1 : net 1 = Except.ok b) :
    fetch_page url net =
      { result := Option.some b, attempts := 2, sleeps := [RETRY_INTERVAL],
        logs := [fetchErrLog url e0, (LogLevel.info, retryMsg)] } := by
  show fetchGo url net [0, 1, 2] = _
  simp [fetchGo, h0, h1, MAX_RETRY]

theorem fetch_page_ok2 {α : Type} {net : Nat → Except String α} (url : String)
    {e0 e1 : String} {b : α}
    (h0 : net 0 = Except.error e0) (h1 : net 1 = Except.error e1)
    (h2 : net 2 = Except.ok b) :
    fetch_page url net =
      { result := Option.some b, attempts := 3,
        sleeps := [RETRY_INTERVAL, RETRY_INTERVAL],
        logs := [fetchErrLog url e0, (LogLevel.info, retryMsg),
                 fetchErrLog url e1, (LogLevel.info, retryMsg)] } := by
  show fetchGo url net [0, 1, 2] = _
  simp [fetchGo, h0, h1, h2, MAX_RETRY]

theorem fetch_page_allFail {α : Type} {net : Nat → Except String α} (url : String)
    {e0 e1 e2 : String}
    (h0 : net 0 = Except.error e0) (h1 : net 1 = Except.error e1)
    (h2 : net 2 = Except.error e2) :
    fetch_page url net =
      { result := Option.none, attempts := 3,
        sleeps := [RETRY_INTERVAL, RETRY_INTERVAL],
        logs := [fetchErrLog url e0, (LogLevel.info, retryMsg),
                 fetchErrLog url e1, (LogLevel.info, retryMsg),
                 fetchErrLog url e2] } := by
  show fetchGo url net [0, 1, 2] = _
  simp [fetchGo, h0, h1, h2, MAX_RETRY]

/-- C1: for every URL, `fetch_page` performs at most `MAX_RETRY` (3) attempts;
it returns the body immediately on the first attempt that succeeds (reaching
attempt `k` means attempts `0..k-1` failed, `k + 1` attempts in total are made,
and one `RETRY_INTERVAL` sleep separates each consecutive pair of failed
attempts); when all attempts fail there are exactly `MAX_RETRY - 1` sleeps of
`RETRY_INTERVAL` each, hence no wait after the final attempt. -/
theorem fetch_page_retry_policy {α : Type} (url : String) (net : Nat → Except String α) :
    (fetch_page url net).attempts ≤ MAX_RETRY ∧
    (∀ k body, k < MAX_RETRY → net k = Except.ok body →
      (∀ j, j < k → ∃ e, net j = Except.error e) →
      (fetch_page url net).result = Option.some body ∧
      (fetch_page url net).attempts = k + 1 ∧
      (fetch_page url net).sleeps = List.replicate k RETRY_INTERVAL) ∧
    ((∀ j, j < MAX_RETRY → ∃ e, net j = Except.error e) →
      (fetch_page url net).result = Option.none ∧
      (fetch_page url net).attempts = MAX_RETRY ∧
      (fetch_page url net).sleeps = List.replicate (MAX_RETRY - 1) RETRY_INTERVAL) := by
  refine ⟨?_, ?_, ?_⟩
  · rcases h0 : net 0 with e0 | b0
    · rcases h1 : net 1 with e1 | b1
      · rcases h2 : net 2 with e2 | b2
        · rw [fetch_page_allFail url h0 h1 h2]; simp [MAX_RETRY]
        · rw [fetch_page_ok2 url h0 h1 h2]; simp [MAX_RETRY]
      · rw [fetch_page_ok1 url h0 h1]; simp [MAX_RETRY]
    · rw [fetch_page_ok0 url h0]; simp [MAX_RETRY]
  · intro k body hk hok hprev
    have hk3 : k < 3 := by simpa [MAX_RETRY] using hk
    interval_cases k
    · rw [fetch_page_ok0 url hok]
      refine ⟨rfl, rfl, by simp⟩
    · obtain ⟨e0, h0⟩ := hprev 0 (by norm_num)
      rw [fetch_page_ok1 url h0 hok]
      refine ⟨rfl, rfl, by simp [List.replicate]⟩
    · obtain ⟨e0, h0⟩ := hprev 0 (by norm_num)
      obtain ⟨e1, h1⟩ := hprev 1 (by norm_num)
      rw [fetch_page_ok2 url h0 h1 hok]
      refine ⟨rfl, rfl, by simp [List.replicate]⟩
  · intro hall
    obtain ⟨e0, h0⟩ := hall 0 (by simp [MAX_RETRY])
    obtain ⟨e1, h1⟩ := hall 1 (by simp [MAX_RETRY])
    obtain ⟨e2, h2⟩ := hall 2 (by simp [MAX_RETRY])
    rw [fetch_page_allFail url h0 h1 h2]
    refine ⟨rfl, rfl, by simp [MAX_RETRY, List.replicate]⟩

/-- Witness for C1 at a concrete network that succeeds on the second attempt:
one failed attempt, one retry sleep, the body returned. -/
theorem fetch_page_retry_policy_witness :
    (fetch_page "u" fun i =>
        if i = 1 then Except.ok "BODY" else (Except.error "E" : Except String String)).result
        = Option.some "BODY" ∧
    (fetch_page "u" fun i =>
        if i = 1 then Except.ok "BODY" else (Except.error "E" : Except String String)).attempts
        = 1 + 1 ∧
    (fetch_page "u" fun i =>
        if i = 1 then Except.ok "BODY" else (Except.error "E" : Except String String)).sleeps
        = List.replicate 1 RETRY_INTERVAL :=
  (fetch_page_retry_policy "u" fun i =>
      if i = 1 then Except.ok "BODY" else (Except.error "E" : Except String String)).2.1
    1 "BODY" (by decide) (by rfl)
    (by intro j hj; interval_cases j; exact ⟨"E", by rfl⟩)

/-- Networks whose attempts all fail, with distinct error messages. -/
def failNetA : Nat → Except String String := fun _ => Except.error "connection timed out"

/-- Second all-failing network, different URL use and different error. -/
def failNetB : Nat → Except String String := fun _ => Except.error "HTTP 500"

/-- C2 counterexample: when all attempts are exhausted, `fetch_page` returns
the bare `None` — the same absent value whatever the URL and whatever the last
error was — so the failure outcome carries neither the final error nor the
URL. -/
theorem fetch_page_failure_carries_nothing :
    (fetch_page "https://suumo.jp/a" failNetA).result = Option.none ∧
    (fetch_page "https://suumo.jp/b" failNetB).result = Option.none ∧
    (fetch_page "https://suumo.jp/a" failNetA).result =
      (fetch_page "https://suumo.jp/b" failNetB).result :=
  ⟨rfl, rfl, rfl⟩

/-- C2 amended: when all `MAX_RETRY` attempts fail, `fetch_page` returns `None`
(distinguishable from every success body, but carrying no error information);
the URL and each attempt's error — in particular the final one — appear only
in the error log lines. -/
theorem fetch_page_failure_value_amended {α : Type} (url : String)
    (net : Nat → Except String α) (e0 e1 e2 : String)
    (h0 : net 0 = Except.error e0) (h1 : net 1 = Except.error e1)
    (h2 : net 2 = Except.error e2) :
    (fetch_page url net).result = Option.none ∧
    (fetch_page url net).logs =
      [fetchErrLog url e0, (LogLevel.info, retryMsg),
       fetchErrLog url e1, (LogLevel.info, retryMsg),
       fetchErrLog url e2] := by
  rw [fetch_page_allFail url h0 h1 h2]
  exact ⟨rfl, rfl⟩

/-- Witness for the amended C2 at a concrete all-failing network. -/
theorem fetch_page_failure_value_amended_witness :
    (fetch_page "https://suumo.jp/a" failNetA).result = Option.none ∧
    (fetch_page "https://suumo.jp/a" failNetA).logs =
      [fetchErrLog "https://suumo.jp/a" "connection timed out",
       (LogLevel.info, retryMsg),
       fetchErrLog "https://suumo.jp/a" "connection timed out",
       (LogLevel.info, retryMsg),
       fetchErrLog "https://suumo.jp/a" "connection timed out"] :=
  fetch_page_failure_value_amended "https://suumo.jp/a" failNetA
    "connection timed out" "connection timed out" "connection timed out" rfl rfl rfl

/-! ### Nonemptiness of the station list -/

theorem splitChar_ne_nil (c : Char) (l : List Char) : splitChar c l ≠ [] := by
  induction l with
  | nil => simp [splitChar]
  | cons a rest ih =>
    simp only [splitChar]
    by_cases h : a = c
    · simp [h]
    · rw [if_neg h]
      cases hs : splitChar c rest <;> simp

theorem pySplit_ne_nil (s : String) (c : Char) : pySplit s c ≠ [] := by
  unfold pySplit
  simp only [ne_eq, List.map_eq_nil_iff]
  exact splitChar_ne_nil c s.data

/-- C10: every record successfully extracted from a listing unit has a
non-empty station list — Python's `split` always yields at least one
(possibly empty) segment. -/
theorem extractUnit_stations_nonempty (u : Node) (r : SummaryRecord)
    (h : extractUnit u = Except.ok r) : r.stations ≠ [] := by
  unfold extractUnit at h
  repeat' split at h
  all_goals first
    | exact Except.noConfusion h
    | (injection h with h2
       subst h2
       simp [List.map_eq_nil_iff, pySplit_ne_nil])

/-! ### Concrete documents and networks for witnesses and counterexamples -/

/-- A well-formed listing unit with the given title, price, layout, station
block, and detail link. -/
def unitNode (nm pr md st href : String) : Node :=
  Node.elem "div" ["property_unit-content"] [] (nlist [
    Node.elem "div" ["property_unit-title"] [] (nlist [Node.text nm]),
    Node.elem "span" ["price"] [] (nlist [Node.text pr]),
    Node.elem "span" ["madori"] [] (nlist [Node.text md]),
    Node.elem "div" ["property_unit-body"] [] (nlist [
      Node.elem "div" [] [] (nlist [Node.text "other"]),
      Node.elem "div" [] [] (nlist [Node.text st])]),
    Node.elem "a" ["js-物件概要"] [("href", href)] (nlist [Node.text "詳細"])])

/-- A detail page with one `data_table` holding a 構造 row and a 敷金 row. -/
def detailDoc (st dep : String) : Node :=
  Node.elem "[document]" [] [] (nlist [
    Node.elem "table" ["data_table"] [] (nlist [
      Node.elem "tr" [] [] (nlist [
        Node.elem "th" [] [] (nlist [Node.text "構造"]),
        Node.elem "td" [] [] (nlist [Node.text st])]),
      Node.elem "tr" [] [] (nlist [
        Node.elem "th" [] [] (nlist [Node.text "敷金/礼金"]),
        Node.elem "td" [] [] (nlist [Node.text dep])])])])

/-- A detail page with no `data_table` at all. -/
def emptyDetailDoc : Node := Node.elem "[document]" [] [] NodeList.nil

def exUnitA : Node := unitNode "A" "7万円" "1K" "新宿駅" "/a"

def exUnitB : Node := unitNode "B" "8万円" "2LDK" "渋谷駅" "/b"

def exUnitC : Node := unitNode "C" "9万円" "1DK" "池袋駅" "/c"

def exUnitD : Node := unitNode "D" "10万円" "3LDK" "目黒駅" "/d"

def exRecA : SummaryRecord :=
  { name := "A", price := "7万円", madori := "1K", stations := ["新宿駅"],
    url := "https://suumo.jp/a" }

def exRecB : SummaryRecord :=
  { name := "B", price := "8万円", madori := "2LDK", stations := ["渋谷駅"],
    url := "https://suumo.jp/b" }

def exRecC : SummaryRecord :=
  { name := "C", price := "9万円", madori := "1DK", stations := ["池袋駅"],
    url := "https://suumo.jp/c" }

/-- The record for unit C after merging its (RC造) detail page. -/
def exFullC : FullRecord :=
  { name := "C", price := "9万円", madori := "1DK", stations := ["池袋駅"],
    url := "https://suumo.jp/c", struct := "RC造", deposit := "6万円/なし" }

/-- The record for unit D after merging an empty detail page: both detail
fields keep the sentinel. -/
def exFullD : FullRecord :=
  { name := "D", price := "10万円", madori := "3LDK", stations := ["目黒駅"],
    url := "https://suumo.jp/d", struct := "情報なし", deposit := "情報なし" }

/-- Index page with the three well-formed units A, B, C. -/
def exIndexHtml : Node := Node.elem "[document]" [] [] (nlist [exUnitA, exUnitB, exUnitC])

/-- Index page with the single well-formed unit D. -/
def exIndexHtmlD : Node := Node.elem "[document]" [] [] (nlist [exUnitD])

/-- The initial world: no output file, empty log. -/
def w0 : World := { file := Option.none, log := [] }

/-- A world left over from some previous activity. -/
def w1 : World := { file := Option.some [["stale"]], log := [(LogLevel.info, "old run")] }

/-- Network for the detail-isolation scenario: the index and the detail pages
of B (wood construction) and C succeed on every attempt; every fetch of A's
detail page fails. -/
def exNet6 : String → Nat → Except String Node := fun u _ =>
  if u = SEARCH_URL then Except.ok exIndexHtml
  else if u = BASE_URL ++ "/b" then Except.ok (detailDoc "木造アパート" "5万円/なし")
  else if u = BASE_URL ++ "/c" then Except.ok (detailDoc "RC造" "6万円/なし")
  else Except.error "404 Not Found"

/-- Network for the sentinel scenario: one unit D whose detail page has no
detail table. -/
def exNet4 : String → Nat → Except String Node := fun u _ =>
  if u = SEARCH_URL then Except.ok exIndexHtmlD
  else if u = BASE_URL ++ "/d" then Except.ok emptyDetailDoc
  else Except.error "404 Not Found"

/-- Network on which every attempt at every URL fails. -/
def exNet5 : String → Nat → Except String Node := fun _ _ =>
  Except.error "connection refused"

/-! ### C10 witness -/

/-- Witness for C10: a concrete well-formed unit extracts successfully and its
station list is non-empty. -/
theorem extractUnit_stations_nonempty_witness :
    extractUnit exUnitA = Except.ok exRecA ∧ exRecA.stations ≠ [] :=
  ⟨by rfl, extractUnit_stations_nonempty exUnitA exRecA (by rfl)⟩

/-! ### C3: a malformation the per-unit handler does not catch -/

/-- A listing unit whose only malformation is the missing detail-link anchor:
title, price, layout and a two-div body are all present. -/
def c3Unit : Node :=
  Node.elem "div" ["property_unit-content"] [] (nlist [
    Node.elem "div" ["property_unit-title"] [] (nlist [Node.text "欠陥"]),
    Node.elem "span" ["price"] [] (nlist [Node.text "8万円"]),
    Node.elem "span" ["madori"] [] (nlist [Node.text "2LDK"]),
    Node.elem "div" ["property_unit-body"] [] (nlist [
      Node.elem "div" [] [] (nlist [Node.text "other"]),
      Node.elem "div" [] [] (nlist [Node.text "駅"])])])

/-- An index document whose single unit is `c3Unit` (N = 0 well-formed,
M = 1 malformed). -/
def c3Doc : Node := Node.elem "[document]" [] [] (nlist [c3Unit])

/-- C3 failing input: on a unit lacking the detail-link anchor the extraction
raises `TypeError` (`None["href"]`), which the loop's `except AttributeError`
does not catch, so `parse_search_results` propagates the exception instead of
returning 0 records with 1 warning. -/
theorem parse_search_results_uncaught_typeError :
    extractUnit c3Unit = Except.error PyErr.typeError ∧
    parse_search_results c3Doc = Except.error PyErr.typeError :=
  ⟨by rfl, by rfl⟩

/-! ### C7: the exclusion filter -/

/-- A record with the given structure field (other fields fixed). -/
def mkStructRec (st : String) : FullRecord :=
  { name := "N", price := "P", madori := "M", stations := ["S"],
    url := "U", struct := st, deposit := "D" }

/-- C7: the filter keeps exactly the records whose structure does not contain
木造, preserving order; on structures 木造アパート / RC造 / 鉄骨造 exactly the
last two remain. -/
theorem filterWood_spec :
    (∀ (l : List FullRecord) (r : FullRecord),
      r ∈ filterWood l ↔ r ∈ l ∧ strContains r.struct "木造" = false) ∧
    (∀ l : List FullRecord, (filterWood l).Sublist l) ∧
    filterWood [mkStructRec "木造アパート", mkStructRec "RC造", mkStructRec "鉄骨造"] =
      [mkStructRec "RC造", mkStructRec "鉄骨造"] := by
  refine ⟨?_, ?_, ?_⟩
  · intro l r
    simp [filterWood, List.mem_filter]
  · intro l
    exact List.filter_sublist l
  · decide

/-- Witness for C7: membership in a concrete filtered list via the
characterisation. -/
theorem filterWood_spec_witness :
    mkStructRec "RC造" ∈ filterWood [mkStructRec "木造アパート", mkStructRec "RC造"] :=
  (filterWood_spec.1 [mkStructRec "木造アパート", mkStructRec "RC造"]
    (mkStructRec "RC造")).mpr ⟨by decide, by decide⟩

/-! ### C8: parse_property_details -/

/-- The structure value a row would contribute: the trimmed `td` text when the
row has both cells and the trimmed `th` text contains 構造. -/
def structOf (row : Node) : Option String :=
  match row.find "th" Option.none, row.find "td" Option.none with
  | Option.some h, Option.some v =>
    if strContains (pyStrip h.innerText) "構造" then Option.some (pyStrip v.innerText)
    else Option.none
  | _, _ => Option.none

/-- The deposit value a row would contribute: the trimmed `td` text when the
row has both cells and the trimmed `th` text contains 敷金 but not 構造 (the
`elif` of the source). -/
def depositOf (row : Node) : Option String :=
  match row.find "th" Option.none, row.find "td" Option.none with
  | Option.some h, Option.some v =>
    if strContains (pyStrip h.innerText) "構造" then Option.none
    else if strContains (pyStrip h.innerText) "敷金" then Option.some (pyStrip v.innerText)
    else Option.none
  | _, _ => Option.none

/-- All structure values contributed by the detail table's rows, in order. -/
def structVals (doc : Node) : List String := (dataTableRows doc).filterMap structOf

/-- All deposit values contributed by the detail table's rows, in order. -/
def depositVals (doc : Node) : List String := (dataTableRows doc).filterMap depositOf

theorem detailStep_struct (d : Details) (row : Node) :
    (detailStep d row).struct = (structOf row).getD d.struct := by
  unfold detailStep structOf
  cases hth : row.find "th" Option.none with
  | none => cases htd : row.find "td" Option.none <;> rfl
  | some h =>
    cases htd : row.find "td" Option.none with
    | none => rfl
    | some v =>
      by_cases hk : strContains (pyStrip h.innerText) "構造" = true
      · simp [hk]
      · by_cases hd : strContains (pyStrip h.innerText) "敷金" = true <;>
          simp [hk, hd]

theorem detailStep_deposit (d : Details) (row : Node) :
    (detailStep d row).deposit = (depositOf row).getD d.deposit := by
  unfold detailStep depositOf
  cases hth : row.find "th" Option.none with
  | none => cases htd : row.find "td" Option.none <;> rfl
  | some h =>
    cases htd : row.find "td" Option.none with
    | none => rfl
    | some v =>
      by_cases hk : strContains (pyStrip h.innerText) "構造" = true
      · simp [hk]
      · by_cases hd : strContains (pyStrip h.innerText) "敷金" = true <;>
          simp [hk, hd]

theorem getLastD_cons {α : Type} (l : List α) :
    ∀ a x : α, ((a :: l).getLast?).getD x = (l.getLast?).getD a := by
  induction l with
  | nil => intro a x; rfl
  | cons b t ih =>
    intro a x
    rw [List.getLast?_cons_cons, ih b x, ih b a]

theorem foldl_detailStep_struct (rows : List Node) :
    ∀ d : Details, ((rows.foldl detailStep d).struct) =
      ((rows.filterMap structOf).getLast?).getD d.struct := by
  induction rows with
  | nil => intro d; rfl
  | cons row rest ih =>
    intro d
    rw [List.foldl_cons, ih (detailStep d row)]
    cases hs : structOf row with
    | none => simp [List.filterMap_cons, hs, detailStep_struct]
    | some v => simp [List.filterMap_cons, hs, detailStep_struct, getLastD_cons]

theorem foldl_detailStep_deposit (rows : List Node) :
    ∀ d : Details, ((rows.foldl detailStep d).deposit) =
      ((rows.filterMap depositOf).getLast?).getD d.deposit := by
  induction rows with
  | nil => intro d; rfl
  | cons row rest ih =>
    intro d
    rw [List.foldl_cons, ih (detailStep d row)]
    cases hs : depositOf row with
    | none => simp [List.filterMap_cons, hs, detailStep_deposit]
    | some v => simp [List.filterMap_cons, hs, detailStep_deposit, getLastD_cons]

/-- C8: `parse_property_details` is total (no modelled operation can fail, so
nothing ever propagates to the caller); on a document whose rows contribute no
structure value the structure field is the sentinel 情報なし, and when marker
rows exist the returned structure is the trimmed paired value of the last one
(likewise for the deposit field). -/
theorem parse_property_details_spec (doc : Node) :
    (structVals doc = [] → (parse_property_details doc).struct = NO_INFO) ∧
    (∀ v, (structVals doc).getLast? = Option.some v →
      (parse_property_details doc).struct = v) ∧
    (depositVals doc = [] → (parse_property_details doc).deposit = NO_INFO) ∧
    (∀ v, (depositVals doc).getLast? = Option.some v →
      (parse_property_details doc).deposit = v) := by
  have hs : (parse_property_details doc).struct =
      ((structVals doc).getLast?).getD NO_INFO :=
    foldl_detailStep_struct (dataTableRows doc) _
  have hd : (parse_property_details doc).deposit =
      ((depositVals doc).getLast?).getD NO_INFO :=
    foldl_detailStep_deposit (dataTableRows doc) _
  refine ⟨?_, ?_, ?_, ?_⟩
  · intro h; rw [hs, h]; rfl
  · intro v hv; rw [hs, hv]; rfl
  · intro h; rw [hd, h]; rfl
  · intro v hv; rw [hd, hv]; rfl

/-- Witness for C8: on a document with no detail table the structure field is
the sentinel; on a table whose 構造 row holds " 木造 " the returned structure
is the trimmed value 木造. -/
theorem parse_property_details_spec_witness :
    (structVals emptyDetailDoc = [] ∧
      (parse_property_details emptyDetailDoc).struct = NO_INFO) ∧
    ((structVals (detailDoc " 木造 " "5万円")).getLast? = Option.some "木造" ∧
      (parse_property_details (detailDoc " 木造 " "5万円")).struct = "木造") :=
  ⟨⟨by rfl, (parse_property_details_spec emptyDetailDoc).1 (by rfl)⟩,
   ⟨by rfl, (parse_property_details_spec (detailDoc " 木造 " "5万円")).2.1 "木造" (by rfl)⟩⟩

/-! ### Structural lemmas about the pipeline -/

/-- Every record returned by the extraction loop comes from a unit on which
`extractUnit` succeeded. -/
theorem parseUnits_mem (us : List Node) :
    ∀ (rs : List SummaryRecord) (w : Nat), parseUnits us = Except.ok (rs, w) →
      ∀ r ∈ rs, ∃ u, u ∈ us ∧ extractUnit u = Except.ok r := by
  induction us with
  | nil =>
    intro rs w hp r hr
    simp only [parseUnits, Except.ok.injEq, Prod.mk.injEq] at hp
    obtain ⟨h1, _⟩ := hp
    subst h1
    simp at hr
  | cons u rest ih =>
    intro rs w hp r hr
    rcases he : extractUnit u with pe | r0
    · cases pe
      case attrError =>
        rcases hrest : parseUnits rest with e2 | rw2
        · simp [parseUnits, he, hrest] at hp
        · obtain ⟨rs2, w2⟩ := rw2
          simp only [parseUnits, he, hrest, Except.ok.injEq, Prod.mk.injEq] at hp
          obtain ⟨h1, _⟩ := hp
          subst h1
          obtain ⟨u2, hu2, hx⟩ := ih rs2 w2 hrest r hr
          exact ⟨u2, List.mem_cons_of_mem _ hu2, hx⟩
      all_goals simp [parseUnits, he] at hp
    · rcases hrest : parseUnits rest with e2 | rw2
      · simp [parseUnits, he, hrest] at hp
      · obtain ⟨rs2, w2⟩ := rw2
        simp only [parseUnits, he, hrest, Except.ok.injEq, Prod.mk.injEq] at hp
        obtain ⟨h1, _⟩ := hp
        subst h1
        rcases List.mem_cons.mp hr with h | h
        · exact ⟨u, List.mem_cons_self u rest, by rw [h]; exact he⟩
        · obtain ⟨u2, hu2, hx⟩ := ih rs2 w2 hrest r h
          exact ⟨u2, List.mem_cons_of_mem _ hu2, hx⟩

/-- The records produced by the detail loop: each summary whose detail fetch
succeeded is merged with its parsed details, in order; the others are
dropped. -/
theorem detailLoop_records (net : String → Nat → Except String Node)
    (ps : List SummaryRecord) :
    (detailLoop net ps).1 = ps.filterMap fun p =>
      ((fetch_page p.url (net p.url)).result).map fun d =>
        mergeRecord p (parse_property_details d) := by
  induction ps with
  | nil => rfl
  | cons p rest ih =>
    simp only [detailLoop]
    rcases hf : (fetch_page p.url (net p.url)).result with _ | d
    · simp [List.filterMap_cons, hf, ih]
    · simp [List.filterMap_cons, hf, ih]

theorem scrape_indexFail (net : String → Nat → Except String Node) (w : World)
    (h : (fetch_page SEARCH_URL (net SEARCH_URL)).result = Option.none) :
    scrape_and_save net w = Except.ok (indexFailResult net w) := by
  unfold scrape_and_save
  rw [h]

theorem scrape_indexOk (net : String → Nat → Except String Node) (w : World)
    (html : Node)
    (h : (fetch_page SEARCH_URL (net SEARCH_URL)).result = Option.some html) :
    scrape_and_save net w = scrapeStage2 net w html := by
  unfold scrape_and_save
  rw [h]

theorem scrapeStage2_ok (net : String → Nat → Except String Node) (w : World)
    (html : Node) (ps : List SummaryRecord) (warns : Nat)
    (h : parse_search_results html = Except.ok (ps, warns)) :
    scrapeStage2 net w html = Except.ok (afterParse net w ps warns) := by
  unfold scrapeStage2
  rw [h]

theorem scrapeStage2_err (net : String → Nat → Except String Node) (w : World)
    (html : Node) (e : PyErr)
    (h : parse_search_results html = Except.error e) :
    scrapeStage2 net w html = Except.error e := by
  unfold scrapeStage2
  rw [h]

/-! ### C5: the two abort cases -/

/-- C5: when the index fetch exhausts all retries, or when extraction yields
no records, the run returns normally with the sink never invoked, no detail
fetch issued, and the output file untouched; the index-fetch case ends the log
with an error line and the empty-extraction case with a warning line. -/
theorem pipeline_abort_cases (net : String → Nat → Except String Node) (w : World) :
    ((fetch_page SEARCH_URL (net SEARCH_URL)).result = Option.none →
      ∃ res, scrape_and_save net w = Except.ok res ∧
        res.sinkInvoked = false ∧ res.detailFetchUrls = [] ∧
        res.world.file = w.file ∧
        res.world.log.getLast? =
          Option.some (LogLevel.error, "Failed to get search results.")) ∧
    (∀ html warns,
      (fetch_page SEARCH_URL (net SEARCH_URL)).result = Option.some html →
      parse_search_results html = Except.ok ([], warns) →
      ∃ res, scrape_and_save net w = Except.ok res ∧
        res.sinkInvoked = false ∧ res.detailFetchUrls = [] ∧
        res.world.file = w.file ∧
        res.world.log.getLast? =
          Option.some (LogLevel.warning, "No properties found.")) := by
  constructor
  · intro h
    refine ⟨indexFailResult net w, scrape_indexFail net w h, rfl, rfl, rfl, ?_⟩
    simp [indexFailResult, ← List.cons_append, ← List.append_assoc, List.getLast?_concat]
  · intro html warns h1 h2
    refine ⟨noPropsResult net w warns, ?_, rfl, rfl, rfl, ?_⟩
    · rw [scrape_indexOk net w html h1, scrapeStage2_ok net w html [] warns h2]
      simp [afterParse]
    · simp [noPropsResult, ← List.cons_append, ← List.append_assoc, List.getLast?_concat]

/-- Witness for C5 on a network where every attempt fails: the run aborts with
the sink never invoked. -/
theorem pipeline_abort_cases_witness :
    ∃ res, scrape_and_save exNet5 w0 = Except.ok res ∧
      res.sinkInvoked = false ∧ res.detailFetchUrls = [] ∧
      res.world.file = w0.file ∧
      res.world.log.getLast? =
        Option.some (LogLevel.error, "Failed to get search results.") :=
  (pipeline_abort_cases exNet5 w0).1 (by rfl)

/-! ### C6 (amended): the sink payload on the main path -/

/-- C6 amended: when the index fetch and parse succeed with a non-empty record
list, the records whose detail fetch succeeded are merged with their details in
the original extraction order (a fully-failed record is dropped, never
defaulted), and the sink receives exactly those merged records that survive the
wood-construction exclusion filter. -/
theorem detail_failure_isolation (net : String → Nat → Except String Node)
    (w : World) (html : Node) (ps : List SummaryRecord) (warns : Nat)
    (h1 : (fetch_page SEARCH_URL (net SEARCH_URL)).result = Option.some html)
    (h2 : parse_search_results html = Except.ok (ps, warns))
    (hne : ps ≠ []) :
    payloadOf (scrape_and_save net w) =
      Option.some (filterWood (ps.filterMap fun p =>
        ((fetch_page p.url (net p.url)).result).map fun d =>
          mergeRecord p (parse_property_details d))) := by
  rw [scrape_indexOk net w html h1, scrapeStage2_ok net w html ps warns h2]
  have hps : ps.isEmpty = false := by
    cases ps
    · exact absurd rfl hne
    · rfl
  simp [afterParse, hps, successResult, payloadOf, detailLoop_records]

/-- The full record for unit B after merging its wood-construction detail
page. -/
def exFullB : FullRecord :=
  { name := "B", price := "8万円", madori := "2LDK", stations := ["渋谷駅"],
    url := "https://suumo.jp/b", struct := "木造アパート", deposit := "5万円/なし" }

/-- Witness for the amended C6 at the concrete network `exNet6`. -/
theorem detail_failure_isolation_witness :
    payloadOf (scrape_and_save exNet6 w0) =
      Option.some (filterWood ([exRecA, exRecB, exRecC].filterMap fun p =>
        ((fetch_page p.url (exNet6 p.url)).result).map fun d =>
          mergeRecord p (parse_property_details d))) :=
  detail_failure_isolation exNet6 w0 exIndexHtml [exRecA, exRecB, exRecC] 0
    (by rfl) (by rfl) (by simp)

/-- C6 counterexample: on `exNet6` (A's detail fetch fails every retry, B's and
C's succeed, B is wood construction) the sink receives only C's record, even
though B's detail fetch succeeded — so the sink does not receive exactly the
records whose detail fetch succeeded: the exclusion filter also removes B. -/
theorem detail_failure_isolation_cex :
    payloadOf (scrape_and_save exNet6 w0) = Option.some [exFullC] ∧
    (fetch_page (BASE_URL ++ "/a") (exNet6 (BASE_URL ++ "/a"))).result = Option.none ∧
    (fetch_page (BASE_URL ++ "/b") (exNet6 (BASE_URL ++ "/b"))).result =
      Option.some (detailDoc "木造アパート" "5万円/なし") ∧
    mergeRecord exRecB
      (parse_property_details (detailDoc "木造アパート" "5万円/なし")) = exFullB ∧
    exFullB ∉ [exFullC] := by
  refine ⟨by decide, by rfl, by rfl, by decide, by decide⟩

/-! ### C4: the sink-payload invariant -/

/-- C4: every record handed to the sink originates from a unit on which
summary extraction fully succeeded — its name, price, layout, stations and
detail URL are exactly the extracted ones, never defaulted (a unit for which
any of them could not be extracted yields no record at all) — and its
structure/deposit fields come from the detail parse, which may legitimately
leave both at the sentinel 情報なし, as the concrete run `exNet4` shows. -/
theorem sink_payload_invariant :
    (∀ (net : String → Nat → Except String Node) (w : World)
        (payload : List FullRecord) (r : FullRecord),
      payloadOf (scrape_and_save net w) = Option.some payload → r ∈ payload →
      ∃ u p d, extractUnit u = Except.ok p ∧
        (fetch_page p.url (net p.url)).result = Option.some d ∧
        r = mergeRecord p (parse_property_details d) ∧
        r.name = p.name ∧ r.price = p.price ∧ r.madori = p.madori ∧
        r.stations = p.stations ∧ r.url = p.url) ∧
    (payloadOf (scrape_and_save exNet4 w0) = Option.some [exFullD] ∧
      exFullD.struct = NO_INFO ∧ exFullD.deposit = NO_INFO) := by
  constructor
  · intro net w payload r hp hr
    rcases hf : (fetch_page SEARCH_URL (net SEARCH_URL)).result with _ | html
    · rw [scrape_indexFail net w hf] at hp
      simp [payloadOf, indexFailResult] at hp
      subst hp
      simp at hr
    · rw [scrape_indexOk net w html hf] at hp
      rcases hparse : parse_search_results html with e | pw
      · rw [scrapeStage2_err net w html e hparse] at hp
        simp [payloadOf] at hp
      · obtain ⟨ps, warns⟩ := pw
        rw [scrapeStage2_ok net w html ps warns hparse] at hp
        by_cases hps : ps.isEmpty
        · simp [afterParse, hps, payloadOf, noPropsResult] at hp
          subst hp
          simp at hr
        · simp only [afterParse, hps, if_false, Bool.false_eq_true] at hp
          simp only [successResult, payloadOf, Option.some.injEq] at hp
          subst hp
          have hr2 : r ∈ (detailLoop net ps).1 :=
            List.mem_of_mem_filter hr
          rw [detailLoop_records net ps] at hr2
          obtain ⟨p, hpmem, hmap⟩ := List.mem_filterMap.mp hr2
          obtain ⟨d, hd, hmerge⟩ := Option.map_eq_some'.mp hmap
          obtain ⟨u, humem, hu⟩ :=
            parseUnits_mem (html.find_all "div" (Option.some "property_unit-content"))
              ps warns hparse p hpmem
          exact ⟨u, p, d, hu, hd, hmerge.symm, by rw [← hmerge]; rfl,
            by rw [← hmerge]; rfl, by rw [← hmerge]; rfl,
            by rw [← hmerge]; rfl, by rw [← hmerge]; rfl⟩
  · exact ⟨by decide, by rfl, by rfl⟩

/-- Witness for C4 at the concrete run `exNet4`: the single delivered record
is traced back to its unit, its fetched detail page, and its merge. -/
theorem sink_payload_invariant_witness :
    payloadOf (scrape_and_save exNet4 w0) = Option.some [exFullD] ∧
    (∃ u p d, extractUnit u = Except.ok p ∧
      (fetch_page p.url (exNet4 p.url)).result = Option.some d ∧
      exFullD = mergeRecord p (parse_property_details d) ∧
      exFullD.name = p.name ∧ exFullD.price = p.price ∧ exFullD.madori = p.madori ∧
      exFullD.stations = p.stations ∧ exFullD.url = p.url) :=
  ⟨by decide, sink_payload_invariant.1 exNet4 w0 [exFullD] exFullD (by decide) (by decide)⟩

/-! ### C9: world-independence and idempotence -/

/-- The world in which the next run starts, after a run that returned
normally (on a propagated exception the process dies instead). -/
def worldAfter (x : Except PyErr RunResult) (w : World) : World :=
  match x with
  | Except.ok r => r.world
  | Except.error _ => w

theorem payload_world_indep (net : String → Nat → Except String Node)
    (w w2 : World) :
    payloadOf (scrape_and_save net w) = payloadOf (scrape_and_save net w2) := by
  rcases hf : (fetch_page SEARCH_URL (net SEARCH_URL)).result with _ | html
  · rw [scrape_indexFail net w hf, scrape_indexFail net w2 hf]
    rfl
  · rw [scrape_indexOk net w html hf, scrape_indexOk net w2 html hf]
    rcases hparse : parse_search_results html with e | pw
    · rw [scrapeStage2_err net w html e hparse, scrapeStage2_err net w2 html e hparse]
    · obtain ⟨ps, warns⟩ := pw
      rw [scrapeStage2_ok net w html ps warns hparse,
        scrapeStage2_ok net w2 html ps warns hparse]
      by_cases hps : ps.isEmpty
      · simp [afterParse, hps, payloadOf, noPropsResult]
      · simp [afterParse, hps, payloadOf, successResult]

/-- C9: the record set a run delivers does not depend on any state left by
earlier runs (output file contents, accumulated log); in particular a second
run started in the world the first run left behind delivers the same record
set as the first. -/
theorem pipeline_idempotent (net : String → Nat → Except String Node)
    (w w2 : World) :
    payloadOf (scrape_and_save net w) = payloadOf (scrape_and_save net w2) ∧
    payloadOf (scrape_and_save net (worldAfter (scrape_and_save net w) w)) =
      payloadOf (scrape_and_save net w) :=
  ⟨payload_world_indep net w w2,
   payload_world_indep net (worldAfter (scrape_and_save net w) w) w⟩

/-- Witness for C9: two concrete runs from different starting worlds (one
fresh, one with a stale file and old log) deliver the same record set. -/
theorem pipeline_idempotent_witness :
    payloadOf (scrape_and_save exNet4 w0) = payloadOf (scrape_and_save exNet4 w1) ∧
    payloadOf (scrape_and_save exNet4 w0) = Option.some [exFullD] :=
  ⟨(pipeline_idempotent exNet4 w0 w1).1, by decide⟩

end Suumo
